import Mathlib

/-!
# Verification of the RP reverse-tunnel server core

A shallow embedding of the server-side code of the RP repository
(`src/Server/pkg/Server/client_handler.go` and the `main`-package server file)
together with theorems settling the specified properties of the control-protocol
engine: frame digestion, session teardown, the proxy-port pool, the reader task
and the TLS control listener.

Go maps become association lists, goroutine interaction becomes explicit event
traces, and the blocking loops (`handle`, `readFrames`, `Server.run`) become
step functions over those traces.  Components of the repository whose source is
not available (the `Utils` frame codec, the `Portqueue` pool, the `Proxy`) are
modelled from the specification and marked as such in their doc comments.
-/

set_option autoImplicit false

namespace RP

/-! ## Constants (from the `main` package source, `const` block) -/

def CTRLPORT : String := "47921"

def TCPPROXYBASE : Nat := 47923

def TCPPROXYAMOUNT : Nat := 10

/-! ## Frames -/

/-- Modelled from the spec: the `Utils` package (frame codec) is not in the
sources.  A frame has a type tag from the enum UNPAIR, EXPOSE_TCP, HIDE_TCP,
EXPOSE_UDP, HIDE_UDP (`Utils.CTRLUNPAIR`, ... in the Go code); `other`
covers any further tag value on the wire. -/
inductive FrameType where
  | ctrlUnpair
  | ctrlExposeTcp
  | ctrlHideTcp
  | ctrlExposeUdp
  | ctrlHideUdp
  | other (tag : Nat)
deriving DecidableEq

/-- Modelled from the spec: `Utils.CTRLFrame`, a discrete control message with
a type and a payload appropriate to its type. -/
structure CTRLFrame where
  typ : FrameType
  data : List String
deriving DecidableEq

/-! ## Port pool -/

/-- Modelled from the spec: the `Portqueue` type itself is not in the sources
(only its constructor call in `HandleClient`).  The spec describes it as a
finite pool of the ports `[BASE, BASE+AMOUNT)` with atomic checkout/return. -/
structure Portqueue where
  free : List Nat
deriving DecidableEq

/-- Modelled from the spec: `NewPortqueue()` builds a pool populated with the
full contiguous proxy-port range. -/
def NewPortqueue : Portqueue :=
  ⟨(List.range TCPPROXYAMOUNT).map (fun i => TCPPROXYBASE + i)⟩

/-- Modelled from the spec: `acquire` atomically removes and returns one free
port, or signals not-available when the pool is empty. -/
def Portqueue.acquire (q : Portqueue) : Option (Nat × Portqueue) :=
  match q.free with
  | [] => none
  | p :: rest => some (p, ⟨rest⟩)

/-- Modelled from the spec: `release` returns a previously acquired port to
the free set. -/
def Portqueue.release (q : Portqueue) (p : Nat) : Portqueue :=
  ⟨q.free ++ [p]⟩

/-! ## Client handler state -/

/-- A relay owned by a session; `digestFrame` in the sources never constructs
one, so only the allocated port is represented. -/
structure Relay where
  port : Nat
deriving DecidableEq

/-- The mutable state of a `ClientHandler` (client_handler.go): the two relay
tables `exposedTcpPorts`/`exposedUdpPorts` (Go maps keyed by port, embedded as
association lists) and the session's `proxyPorts` pool. -/
structure ClientHandlerState where
  exposedTcpPorts : List (Nat × Relay)
  exposedUdpPorts : List (Nat × Relay)
  proxyPorts : Portqueue
deriving DecidableEq

/-- Embeds the initialization in `HandleClient` (client_handler.go, lines
23-32): every call allocates a new `ClientHandler` with empty relay tables and
a fresh pool obtained from `NewPortqueue()`. -/
def HandleClientInit : ClientHandlerState :=
  { exposedTcpPorts := []
    exposedUdpPorts := []
    proxyPorts := NewPortqueue }

/-! ## digestFrame -/

/-- The observable effect of one `digestFrame` call: the handler state after
the call, the frames pushed onto the `toclient` (response) channel, and
whether the session's cancel function `cnl` was invoked. -/
structure DigestResult where
  state : ClientHandlerState
  toclient : List CTRLFrame
  cancelCalled : Bool
deriving DecidableEq

/-- Embeds `digestFrame` (client_handler.go, lines 112-127): a switch on the
frame type.  The `CTRLUNPAIR` arm calls `cnl()` and returns; the arms for
EXPOSE_TCP, HIDE_TCP, EXPOSE_UDP and HIDE_UDP hold only comments, and a tag
outside the enum matches no arm, so all of these fall through with no effect
and no response. -/
def digestFrame (c : ClientHandlerState) (msg : CTRLFrame) : DigestResult :=
  match msg.typ with
  | .ctrlUnpair => ⟨c, [], true⟩
  | .ctrlExposeTcp => ⟨c, [], false⟩
  | .ctrlHideTcp => ⟨c, [], false⟩
  | .ctrlExposeUdp => ⟨c, [], false⟩
  | .ctrlHideUdp => ⟨c, [], false⟩
  | .other _ => ⟨c, [], false⟩

/-! ## The handle loop

`handle` (client_handler.go, lines 38-81) is a `select` loop over the session
context's done channel, the inbound `reqChan` and the outbound `respChan`.  It
is embedded as a step function over the events the `select` can fire on.  The
results of the external calls `Utils.ToByteArray` (encode) and `Conn.Write`
are inputs of the event, since their code is not part of the session logic. -/

/-- Outcome of the `c.Conn.Write` call on a response frame: success, an error
satisfying `errors.Is(err, net.ErrClosed)`, or any other write error. -/
inductive WriteResult where
  | ok
  | errClosed
  | errOther
deriving DecidableEq

/-- One firing of the `select` in `handle`: the context's done channel, a
request frame arriving on `reqChan`, or a response frame arriving on
`respChan`.  For a response, `enc = none` means `Utils.ToByteArray` returned
an error; `enc = some w` means encoding succeeded and the write returned
`w`. -/
inductive HandleEvent where
  | ctxDone
  | req (f : CTRLFrame)
  | resp (f : CTRLFrame) (enc : Option WriteResult)
deriving DecidableEq

/-- The session-visible state carried through the `handle` loop: the
`ClientHandler` fields, whether `cnl` has been called (the session context is
cancelled), whether the control connection has been closed (the deferred
`Conn.Close` has run), and how many error-level log lines `handle` has
emitted. -/
structure HandleState where
  chState : ClientHandlerState
  cancelCalled : Bool
  connClosed : Bool
  errorLogs : Nat
deriving DecidableEq

/-- Embeds one iteration of the `select` loop in `handle`.  Returns the state
after the iteration and whether the function returned on it:
the done case returns; a request is digested (its responses go to `respChan`,
which surfaces as later `resp` events); an encode error logs at error level
and `continue`s; a written response continues; a write error that is
`net.ErrClosed` calls `cnl()` and returns; any other write error logs at debug
level and falls through to the next iteration. -/
def handleStep (hs : HandleState) (ev : HandleEvent) : HandleState × Bool :=
  match ev with
  | .ctxDone => (hs, true)
  | .req f =>
      let r := digestFrame hs.chState f
      ({ hs with
          chState := r.state
          cancelCalled := hs.cancelCalled || r.cancelCalled }, false)
  | .resp _ enc =>
      match enc with
      | none => ({ hs with errorLogs := hs.errorLogs + 1 }, false)
      | some .ok => (hs, false)
      | some .errClosed => ({ hs with cancelCalled := true }, true)
      | some .errOther => (hs, false)

/-- Embeds a run of the `handle` loop over a finite trace of `select` events.
When the loop body returns, the deferred `Conn.Close` runs, so the connection
is closed.  Once `cnl` has been called the done channel is ready, so when no
further channel event is pending the `select` takes the done case and the
loop returns; with `cnl` never called and no pending event the loop merely
keeps blocking. -/
def handleRun (hs : HandleState) : List HandleEvent → HandleState
  | [] => if hs.cancelCalled then { hs with connClosed := true } else hs
  | ev :: rest =>
      let r := handleStep hs ev
      if r.2 then { r.1 with connClosed := true } else handleRun r.1 rest

/-! ## The reader task -/

/-- One iteration of the `select` loop in `readFrames`: either the context's
done channel fires, or the default branch runs `Utils.ReadFrame` which yields
a frame, an error satisfying `errors.Is(err, net.ErrClosed)`, or any other
read error. -/
inductive ReaderEvent where
  | ctxDone
  | readFrame (f : CTRLFrame)
  | readErrClosed
  | readErrOther
deriving DecidableEq

/-- The observable outcome of a terminated `readFrames` call: the frames it
pushed onto the `fromclient` channel, whether the deferred `cnl()` ran, and
which log lines the error arms emitted (`loggedError` for the error-level
line on an unclassified read error, `loggedClosedInfo` for the informational
line on a closed connection). -/
structure ReaderOutcome where
  delivered : List CTRLFrame
  cancelTriggered : Bool
  loggedError : Bool
  loggedClosedInfo : Bool
deriving DecidableEq

/-- Embeds `readFrames` (client_handler.go, lines 85-106) over a finite trace
of iteration events.  Every `return` path runs the deferred `cnl()`.  A read
error classified as `net.ErrClosed` logs the debug-level closed message and
returns; any other read error logs at error level and returns; a read frame
is sent on the channel and the loop continues.  `none` means the trace ended
with the loop still running. -/
def readFrames : List ReaderEvent → Option ReaderOutcome
  | [] => none
  | .ctxDone :: _ => some ⟨[], true, false, false⟩
  | .readErrClosed :: _ => some ⟨[], true, false, true⟩
  | .readErrOther :: _ => some ⟨[], true, true, false⟩
  | .readFrame f :: rest =>
      (readFrames rest).map (fun o => { o with delivered := f :: o.delivered })

/-! ## TLS configuration and the control listener (main package source) -/

/-- The Go `tls.ClientAuthType` values relevant here. -/
inductive ClientAuthType where
  | noClientCert
  | requireAndVerifyClientCert
deriving DecidableEq

/-- A certificate pool, abstracted to the PEM data appended to it. -/
structure CertPool where
  certs : List String
deriving DecidableEq

/-- The fields of the `tls.Config` literal built by `prepareTlsConfig`. -/
structure TlsConfig where
  certificates : List String
  clientCAs : CertPool
  clientAuth : ClientAuthType
deriving DecidableEq

/-- The results of the environment calls `prepareTlsConfig` makes:
`os.UserHomeDir`, `os.ReadFile` on the CA certificate,
`AppendCertsFromPEM`, and `tls.LoadX509KeyPair`.  `none`/`false` stands for
the call failing. -/
structure TlsEnv where
  homeDir : Option String
  caCertData : Option String
  caAppendOk : Bool
  keyPair : Option String
deriving DecidableEq

/-- Embeds `prepareTlsConfig` (main package source, lines 50-84): each failing
environment call logs and returns `nil`; on success the returned config holds
the loaded key pair, the CA pool built from the read CA data, and
`ClientAuth: tls.RequireAndVerifyClientCert`. -/
def prepareTlsConfig (env : TlsEnv) : Option TlsConfig :=
  match env.homeDir with
  | none => none
  | some _ =>
      match env.caCertData with
      | none => none
      | some ca =>
          if env.caAppendOk then
            match env.keyPair with
            | none => none
            | some cer =>
                some { certificates := [cer]
                       clientCAs := ⟨[ca]⟩
                       clientAuth := .requireAndVerifyClientCert }
          else none

/-- The arguments `waitForCtrlConnection` passes to `tls.Listen` (main package
source, line 87). -/
structure ListenCall where
  network : String
  addr : String
  config : TlsConfig
deriving DecidableEq

/-- Embeds the `tls.Listen` call of `waitForCtrlConnection`: network "tcp",
address ":" + CTRLPORT, under the prepared TLS config. -/
def waitForCtrlConnectionListen (config : TlsConfig) : ListenCall :=
  ⟨"tcp", ":" ++ CTRLPORT, config⟩

/-- How a call in the server core ends: a plain return, or a Go `panic`. -/
inductive CoreOutcome where
  | returned
  | panicked
deriving DecidableEq

/-- Embeds the error handling of `waitForCtrlConnection` (main package source,
lines 86-120): if `tls.Listen` fails the function logs and executes
`panic(err)`; if `l.Accept` fails (in particular because the helper goroutine
closed the listener on context cancellation) it logs at debug level and
returns; otherwise it stores the new proxy and returns. -/
def waitForCtrlConnectionOutcome (listenOk : Bool) (acceptOk : Bool) :
    CoreOutcome :=
  if listenOk then
    if acceptOk then .returned else .returned
  else .panicked

/-- Embeds the startup path of `Server.run` (main package source, lines
23-29): when `prepareTlsConfig` yields `nil` the method logs an error and
returns, aborting startup; otherwise it proceeds into the accept loop. -/
def runStartupAborts (env : TlsEnv) : Bool :=
  match prepareTlsConfig env with
  | none => true
  | some _ => false

/-! ## The accept loop of `Server.run` -/

/-- The state `Server.run` threads through its loop: `proxy` is the `s.proxy`
pointer (`none` is Go `nil`, which it is until the first accepted
connection), and `sessionsHandled` records the connections whose sessions
have completed, in order. -/
structure RunState where
  proxy : Option Nat
  sessionsHandled : List Nat
deriving DecidableEq

/-- What `waitForCtrlConnection` produced for one iteration of the loop:
an accepted connection (identified by a number), or a return without a new
connection because `Accept` failed (e.g. the listener was closed on
cancellation). -/
inductive AcceptResult where
  | conn (id : Nat)
  | failed
deriving DecidableEq

/-- One firing of the `select` at the top of the `Server.run` loop: the
context's done channel, or the default branch running one iteration whose
accept outcome is given. -/
inductive RunEvent where
  | done
  | iterate (a : AcceptResult)
deriving DecidableEq

/-- Result of one iteration of the `Server.run` loop body. -/
inductive RunStepResult where
  | returns
  | panics
  | continues (s : RunState)
deriving DecidableEq

/-- Embeds one iteration of the `Server.run` loop (main package source, lines
31-47).  The done case returns.  The default branch calls
`waitForCtrlConnection` and then unconditionally evaluates
`s.proxy.CtrlConn.RemoteAddr()` for the "Client connected" log line: if
`Accept` succeeded, `s.proxy` was just set and the session runs to completion
(`manageCtrlConnectionIncoming` is modelled from the spec as returning when
the client disconnects or the context is cancelled) before the iteration
ends; if `Accept` failed while `s.proxy` is still `nil`, that dereference is
a nil-pointer dereference, a runtime panic; if a proxy from an earlier
session exists, the stale connection is logged and managed again and the
iteration ends without a new session. -/
def runStep (s : RunState) : RunEvent → RunStepResult
  | .done => .returns
  | .iterate (.conn id) =>
      .continues { proxy := some id, sessionsHandled := s.sessionsHandled ++ [id] }
  | .iterate .failed =>
      match s.proxy with
      | none => .panics
      | some _ => .continues s

/-! ## Helper lemmas -/

/-- A successfully acquired port was a member of the pool's free set. -/
theorem Portqueue.acquire_mem (Q : Portqueue) (p : Nat) (q : Portqueue)
    (h : Q.acquire = some (p, q)) : p ∈ Q.free := by
  cases hf : Q.free with
  | nil => simp [Portqueue.acquire, hf] at h
  | cons a rest =>
      simp [Portqueue.acquire, hf] at h
      obtain ⟨h1, h2⟩ := h
      subst h1
      simp [hf]

/-- No iteration of the handle loop un-cancels the session context. -/
theorem handleStep_cancel_mono (hs : HandleState) (ev : HandleEvent)
    (h : hs.cancelCalled = true) : (handleStep hs ev).1.cancelCalled = true := by
  cases ev with
  | ctxDone => exact h
  | req f => simp [handleStep, h]
  | resp f enc =>
      cases enc with
      | none => exact h
      | some w => cases w <;> simp [handleStep, h]

/-- Once the session context has been cancelled, any run of the handle loop
ends with the loop returned and the control connection closed. -/
theorem handleRun_cancel_closes (hs : HandleState) (evs : List HandleEvent)
    (h : hs.cancelCalled = true) : (handleRun hs evs).connClosed = true := by
  induction evs generalizing hs with
  | nil => simp [handleRun, h]
  | cons ev rest ih =>
      simp only [handleRun]
      by_cases hr : (handleStep hs ev).2 = true
      · simp [hr]
      · simp only [Bool.not_eq_true] at hr
        simp [hr]
        exact ih _ (handleStep_cancel_mono hs ev h)

/-- Every terminated run of the reader task has run the deferred cancel. -/
theorem readFrames_cancelTriggered (evs : List ReaderEvent) (out : ReaderOutcome)
    (h : readFrames evs = some out) : out.cancelTriggered = true := by
  induction evs generalizing out with
  | nil => simp [readFrames] at h
  | cons ev rest ih =>
      cases ev with
      | ctxDone => simp [readFrames] at h; rw [← h]
      | readErrClosed => simp [readFrames] at h; rw [← h]
      | readErrOther => simp [readFrames] at h; rw [← h]
      | readFrame f =>
          simp only [readFrames, Option.map] at h
          cases ho : readFrames rest with
          | none => rw [ho] at h; simp at h
          | some o =>
              rw [ho] at h
              simp at h
              rw [← h]
              exact ih o ho

/-! ## Theorems for the claims -/

/-- Claim C1 (counterexample): the Port Allocator is not one shared
server-owned instance.  `HandleClient` gives every session its own fresh
`Portqueue`, so after one session checks out port 47923 (the first acquire on
its pool), port 47923 is still in the free set of any other session's pool,
which is the same fresh `HandleClientInit` pool: the checked-out port is NOT
observed as unavailable by other sessions. -/
theorem same_port_acquired_by_two_sessions :
    (Portqueue.acquire HandleClientInit.proxyPorts).map Prod.fst = some 47923 ∧
    47923 ∈ HandleClientInit.proxyPorts.free := by decide

/-- Claim C1 (amended): acquire and release operate on a per-session
`Portqueue` created freshly by `HandleClient` for each session, so a port
checked out by one session is still free in every other session's
freshly-initialized pool. -/
theorem acquired_port_still_free_in_other_session (p : Nat) (q : Portqueue)
    (h : Portqueue.acquire HandleClientInit.proxyPorts = some (p, q)) :
    HandleClientInit.proxyPorts = NewPortqueue ∧
    p ∈ HandleClientInit.proxyPorts.free :=
  ⟨rfl, Portqueue.acquire_mem _ p q h⟩

/-- Witness for the amended claim C1 at the concrete first acquire. -/
theorem acquired_port_still_free_in_other_session_witness :
    HandleClientInit.proxyPorts = NewPortqueue ∧
    47923 ∈ HandleClientInit.proxyPorts.free :=
  acquired_port_still_free_in_other_session 47923
    ⟨[47924, 47925, 47926, 47927, 47928, 47929, 47930, 47931, 47932]⟩
    (by decide)

/-- Claim C2: evaluating `digestFrame` at an EXPOSE_TCP frame.  The
`CTRLEXPOSETCP` arm of the switch is an empty stub under a TODO, so for every
session state and payload the call acquires no port, starts no relay, and
emits no response frame, success or failure. -/
theorem digest_expose_tcp_is_noop (c : ClientHandlerState) (d : List String) :
    digestFrame c ⟨FrameType.ctrlExposeTcp, d⟩ = ⟨c, [], false⟩ := rfl

/-- Claim C3 (counterexample): at a concrete session state, an encode error on
a response frame (`Utils.ToByteArray` failing, which is not classified as
connection-closed) does not terminate the session: the loop iteration does not
return, and after the event the session has neither been cancelled nor its
connection closed, contradicting the claim that the session proceeds directly
to teardown. -/
theorem encode_error_does_not_terminate_session :
    (handleStep ⟨HandleClientInit, false, false, 0⟩
        (HandleEvent.resp ⟨FrameType.ctrlExposeTcp, []⟩ none)).2 = false ∧
    (handleRun ⟨HandleClientInit, false, false, 0⟩
        [HandleEvent.resp ⟨FrameType.ctrlExposeTcp, []⟩ none]).connClosed = false ∧
    (handleRun ⟨HandleClientInit, false, false, 0⟩
        [HandleEvent.resp ⟨FrameType.ctrlExposeTcp, []⟩ none]).cancelCalled = false := by
  decide

/-- Claim C3 (amended): an error encoding a response frame is logged at error
level and the frame loop continues; a write error not classified as
connection-closed is logged and the loop continues; only a write error
classified as connection-closed terminates the session (cancel and return). -/
theorem response_error_handling (hs : HandleState) (f : CTRLFrame) :
    handleStep hs (HandleEvent.resp f none) =
      ({ hs with errorLogs := hs.errorLogs + 1 }, false) ∧
    handleStep hs (HandleEvent.resp f (some WriteResult.errOther)) = (hs, false) ∧
    handleStep hs (HandleEvent.resp f (some WriteResult.errClosed)) =
      ({ hs with cancelCalled := true }, true) :=
  ⟨rfl, rfl, rfl⟩

/-- Claim C4: digesting an UNPAIR frame calls the session's cancel function
and emits no response frame, and the session loop subsequently returns and
the control connection is closed, whatever events are still pending. -/
theorem unpair_cancels_and_closes (c : ClientHandlerState) (d : List String)
    (hs : HandleState) (rest : List HandleEvent) :
    digestFrame c ⟨FrameType.ctrlUnpair, d⟩ = ⟨c, [], true⟩ ∧
    (handleRun hs (HandleEvent.req ⟨FrameType.ctrlUnpair, d⟩ :: rest)).connClosed = true := by
  refine ⟨rfl, ?_⟩
  simp only [handleRun, handleStep, digestFrame]
  exact handleRun_cancel_closes _ rest (by simp)

/-- Claim C5: after any frames, a read error stops the reader task (the call
returns) and triggers the deferred session cancel; a connection-closed error
emits only the informational closed-connection log, and any other read error
emits the error-level log. -/
theorem read_error_stops_reader_and_cancels (fs : List CTRLFrame) :
    readFrames (fs.map ReaderEvent.readFrame ++ [ReaderEvent.readErrClosed]) =
      some ⟨fs, true, false, true⟩ ∧
    readFrames (fs.map ReaderEvent.readFrame ++ [ReaderEvent.readErrOther]) =
      some ⟨fs, true, true, false⟩ := by
  induction fs with
  | nil => exact ⟨rfl, rfl⟩
  | cons f rest ih =>
      refine ⟨?_, ?_⟩ <;>
        simp [List.map_cons, List.cons_append, readFrames, List.append_eq, ih.1, ih.2]

/-- Claim C6 (counterexample): with a successfully prepared TLS configuration
(so the one permitted abort path is not taken), two other error paths abort
the process: a failure of `tls.Listen` in `waitForCtrlConnection` executes
`panic(err)`, and an `Accept` failure while `s.proxy` is still nil hits the
nil-pointer dereference in `Server.run`'s connected-client log line, a
runtime panic. -/
theorem listen_or_nil_proxy_failure_panics :
    waitForCtrlConnectionOutcome false true = CoreOutcome.panicked ∧
    runStep ⟨none, []⟩ (RunEvent.iterate AcceptResult.failed) =
      RunStepResult.panics ∧
    runStartupAborts ⟨some "/home/user", some "myCA", true, some "server"⟩ = false := by
  decide

/-- Claim C6 (amended): failure to prepare the TLS configuration aborts
startup by an early logged return, without panic.  Beyond it, exactly two
error paths in the cited listener code are process-fatal: a `tls.Listen`
failure panics inside `waitForCtrlConnection`, and an `Accept` failure while
`s.proxy` is still nil panics on the nil dereference in `Server.run`.  Accept
failures abort nothing else: `waitForCtrlConnection` itself returns, and the
run loop continues when a proxy from an earlier session exists. -/
theorem abort_paths_characterized (env : TlsEnv) (acceptOk : Bool) (p : Nat)
    (l : List Nat) :
    (runStartupAborts env = true ↔ prepareTlsConfig env = none) ∧
    waitForCtrlConnectionOutcome false acceptOk = CoreOutcome.panicked ∧
    waitForCtrlConnectionOutcome true acceptOk = CoreOutcome.returned ∧
    runStep ⟨none, l⟩ (RunEvent.iterate AcceptResult.failed) =
      RunStepResult.panics ∧
    runStep ⟨some p, l⟩ (RunEvent.iterate AcceptResult.failed) =
      RunStepResult.continues ⟨some p, l⟩ := by
  refine ⟨?_, rfl, ?_, rfl, rfl⟩
  · unfold runStartupAborts
    cases prepareTlsConfig env <;> simp
  · cases acceptOk <;> rfl

/-- Claim C7: evaluating the `Server.run` loop at the failing input.  When
cancellation closes the listener while the server is still waiting for its
first client, `Accept` fails, `waitForCtrlConnection` returns without setting
`s.proxy`, and the iteration dereferences the nil `s.proxy` for its "Client
connected" log line: a runtime panic, not a clean exit of the accept loop. -/
theorem cancel_before_first_client_panics :
    runStep ⟨none, []⟩ (RunEvent.iterate AcceptResult.failed) =
      RunStepResult.panics := rfl

/-- Claim C8: whenever `prepareTlsConfig` succeeds, the resulting
configuration requires and verifies a client certificate against the pool
built from the configured CA certificate data, and `waitForCtrlConnection`
listens with TLS on tcp port 47921 under exactly that configuration, so every
accepted control connection is mutually authenticated. -/
theorem ctrl_listener_mutual_tls (env : TlsEnv) (cfg : TlsConfig)
    (h : prepareTlsConfig env = some cfg) :
    cfg.clientAuth = ClientAuthType.requireAndVerifyClientCert ∧
    (∃ ca, env.caCertData = some ca ∧ cfg.clientCAs = ⟨[ca]⟩) ∧
    waitForCtrlConnectionListen cfg = ⟨"tcp", ":47921", cfg⟩ := by
  rcases env with ⟨hd, cad, ap, kp⟩
  cases hd with
  | none => simp [prepareTlsConfig] at h
  | some hdv =>
      cases cad with
      | none => simp [prepareTlsConfig] at h
      | some ca =>
          cases ap with
          | false => simp [prepareTlsConfig] at h
          | true =>
              cases kp with
              | none => simp [prepareTlsConfig] at h
              | some cer =>
                  simp [prepareTlsConfig] at h
                  refine ⟨?_, ⟨ca, rfl, ?_⟩, ?_⟩
                  · rw [← h]
                  · rw [← h]
                  · rw [← h]
                    exact congrArg (fun a => ListenCall.mk "tcp" a _) (by decide)

/-- Witness for claim C8 at a concrete successful environment. -/
theorem ctrl_listener_mutual_tls_witness :
    TlsConfig.clientAuth
        ⟨["server"], ⟨["myCA"]⟩, ClientAuthType.requireAndVerifyClientCert⟩ =
      ClientAuthType.requireAndVerifyClientCert ∧
    (∃ ca, TlsEnv.caCertData ⟨some "/home/user", some "myCA", true, some "server"⟩ =
        some ca ∧
      TlsConfig.clientCAs
          ⟨["server"], ⟨["myCA"]⟩, ClientAuthType.requireAndVerifyClientCert⟩ =
        ⟨[ca]⟩) ∧
    waitForCtrlConnectionListen
        ⟨["server"], ⟨["myCA"]⟩, ClientAuthType.requireAndVerifyClientCert⟩ =
      ⟨"tcp", ":47921",
        ⟨["server"], ⟨["myCA"]⟩, ClientAuthType.requireAndVerifyClientCert⟩⟩ :=
  ctrl_listener_mutual_tls ⟨some "/home/user", some "myCA", true, some "server"⟩
    ⟨["server"], ⟨["myCA"]⟩, ClientAuthType.requireAndVerifyClientCert⟩ rfl

/-- Claim C9: every inbound frame whose type is not UNPAIR (the EXPOSE/HIDE
stubs and any unknown tag) leaves the session state untouched, pushes no
response frame, and does not cancel the session. -/
theorem non_unpair_frames_are_noops (c : ClientHandlerState) (msg : CTRLFrame)
    (h : msg.typ ≠ FrameType.ctrlUnpair) :
    digestFrame c msg = ⟨c, [], false⟩ := by
  obtain ⟨typ, d⟩ := msg
  cases typ with
  | ctrlUnpair => exact absurd rfl h
  | ctrlExposeTcp => rfl
  | ctrlHideTcp => rfl
  | ctrlExposeUdp => rfl
  | ctrlHideUdp => rfl
  | other tag => rfl

/-- Witness for claim C9 at a concrete HIDE_TCP frame. -/
theorem non_unpair_frames_are_noops_witness :
    digestFrame HandleClientInit ⟨FrameType.ctrlHideTcp, []⟩ =
      ⟨HandleClientInit, [], false⟩ :=
  non_unpair_frames_are_noops HandleClientInit ⟨FrameType.ctrlHideTcp, []⟩
    (by decide)

/-- Claim C10: whenever the reader task exits, for any reason (context done,
closed connection, or any other read error), the deferred cancel has run, and
from a cancelled session context every run of the handle loop returns and
closes the control connection. -/
theorem reader_exit_cancels_and_closes_session (evs : List ReaderEvent)
    (out : ReaderOutcome) (hs : HandleState) (hevs : List HandleEvent)
    (h : readFrames evs = some out) :
    out.cancelTriggered = true ∧
    (handleRun { hs with cancelCalled := true } hevs).connClosed = true :=
  ⟨readFrames_cancelTriggered evs out h,
   handleRun_cancel_closes _ hevs rfl⟩

/-- Witness for claim C10 at a concrete reader trace and session state. -/
theorem reader_exit_cancels_and_closes_session_witness :
    ReaderOutcome.cancelTriggered ⟨[], true, false, true⟩ = true ∧
    (handleRun ⟨HandleClientInit, true, false, 0⟩ []).connClosed = true :=
  reader_exit_cancels_and_closes_session [ReaderEvent.readErrClosed]
    ⟨[], true, false, true⟩ ⟨HandleClientInit, false, false, 0⟩ [] rfl

end RP
